import Mathlib

/-!
A shallow embedding of the ESDAR-Checker repository (Python) in Lean 4.

Python strings are modelled as `List Char`; Python lists as `List`;
Python dictionaries holding a per-domain check result as the structure
`DomainResult`.  File-system and network effects are made explicit:
CSV writing returns the content that would be written, the DNS resolver
is an oracle function passed to the embedded engine, and the module-level
mutable configuration of `config.py` is explicit state passing.
-/

/-- The list of characters of a string literal (Python strings are
modelled as `List Char`). -/
def chars (s : String) : List Char := s.data

/-- The model of a Python string. -/
abbrev Str := List Char

/-- One pass of Python `str.replace` with the non-empty pattern `o :: ol`:
scan the haystack left to right and replace each non-overlapping
occurrence of the pattern by `new`. -/
def pyReplaceGo (o : Char) (ol new : Str) : Str → Str
  | [] => []
  | c :: rest =>
    if (o :: ol).isPrefixOf (c :: rest) then
      new ++ pyReplaceGo o ol new (rest.drop ol.length)
    else
      c :: pyReplaceGo o ol new rest
termination_by l => l.length
decreasing_by
  · simp only [List.length_cons, List.length_drop]
    omega
  · simp

/-- Python `str.replace(old, new)`: every non-overlapping occurrence of
`old`, scanned left to right, is replaced by `new`.  For the empty
pattern CPython inserts `new` before every character and once at the
end; no caller in this repository passes an empty pattern. -/
def pyReplace (hay old new : Str) : Str :=
  match old with
  | [] => new ++ hay.flatMap (fun c => c :: new)
  | o :: ol => pyReplaceGo o ol new hay

/-- `helper.replace_characters` (src/helper.py:29-43): returns `""` for a
falsy (empty) input, otherwise `record_to_check.replace(char_to_replace,
new_char)`; the default arguments replace `";"` by `","`. -/
def replace_characters (record_to_check : Str)
    (char_to_replace : Str := chars ";") (new_char : Str := chars ",") : Str :=
  if record_to_check = [] then []
  else pyReplace record_to_check char_to_replace new_char

lemma pyReplaceGo_single (a b : Char) (s : Str) :
    pyReplaceGo a [] [b] s = s.map (fun c => if c = a then b else c) := by
  induction s with
  | nil => simp [pyReplaceGo]
  | cons c rest ih =>
    by_cases h : c = a
    · subst h
      simp [pyReplaceGo, List.isPrefixOf, ih]
    · simp [pyReplaceGo, List.isPrefixOf, h, ih, Ne.symm h]

lemma replace_characters_default_map (s : Str) :
    replace_characters s = s.map (fun c => if c = ';' then ',' else c) := by
  cases s with
  | nil => rfl
  | cons c rest =>
    show pyReplace (c :: rest) (chars ";") (chars ",") = _
    exact pyReplaceGo_single ';' ',' (c :: rest)

/-- C1: with its default arguments, `replace_characters` replaces every
occurrence of `';'` by `','`, makes no other change to the string, and
returns the empty string on the empty string. -/
theorem C1_replace_characters_default (s : Str) :
    replace_characters s = s.map (fun c => if c = ';' then ',' else c) :=
  replace_characters_default_map s

/-- Python's substring test `needle in hay`: `true` exactly when `needle`
occurs contiguously inside `hay` (the empty needle is contained in
every string). -/
def strContains : Str → Str → Bool
  | [], needle => needle.isPrefixOf []
  | c :: rest, needle => needle.isPrefixOf (c :: rest) || strContains rest needle

/-- Model of one character under Python `str.lower()`, restricted to the
ASCII case mapping `A`–`Z` ↦ `a`–`z` (the repository only lower-cases
DNS record phrases, which are ASCII). -/
def pyToLowerChar (c : Char) : Char :=
  if 65 ≤ c.toNat ∧ c.toNat ≤ 90 then Char.ofNat (c.toNat + 32) else c

/-- Model of Python `str.lower()` (ASCII case mapping). -/
def pyLower (s : Str) : Str := s.map pyToLowerChar

/-- Terminal status used when `process_single_domain` prints one record
line: `found` models `print_found` (green `[✓]`), `notFound` models
`print_not_found` (red `[✗]`), and `partialInfo` models `print_partial`
(yellow `[~]`), see src/terminal_message_handler.py. -/
inductive PrintStatus where
  | found
  | notFound
  | partialInfo
  deriving DecidableEq

/-- The MX branch of `process_single_domain`
(src/esdar-checker_v2.py:163-166): not-found when the formatted string
contains `'No MX'`, `'does not exist'`, `'timeout'`, or `'error'` in its
lower-cased form; found otherwise. -/
def mx_status (mx : Str) : PrintStatus :=
  if strContains mx (chars "No MX") || strContains mx (chars "does not exist") ||
     strContains mx (chars "timeout") || strContains (pyLower mx) (chars "error") then
    .notFound
  else .found

/-- The SPF branch of `process_single_domain`
(src/esdar-checker_v2.py:169-172). -/
def spf_status (spf : Str) : PrintStatus :=
  if strContains spf (chars "No SPF") || strContains spf (chars "does not exist") ||
     strContains spf (chars "timeout") || strContains (pyLower spf) (chars "error") then
    .notFound
  else .found

/-- The DMARC branch of `process_single_domain`
(src/esdar-checker_v2.py:193-196). -/
def dmarc_status (dmarc : Str) : PrintStatus :=
  if strContains dmarc (chars "No DMARC") || strContains dmarc (chars "does not exist") ||
     strContains dmarc (chars "timeout") || strContains (pyLower dmarc) (chars "error") then
    .notFound
  else .found

/-- The DKIM branch of `process_single_domain`
(src/esdar-checker_v2.py:174-190): among the failure phrases, the
combination `'no selectors provided'` without `'tested common selectors'`
(both checked on the lower-cased string) is printed as partial; every
other failure phrase is printed as not-found. -/
def dkim_status (dkim : Str) : PrintStatus :=
  let dkim_lower := pyLower dkim
  if strContains dkim_lower (chars "no dkim") ||
     strContains dkim_lower (chars "no selector") ||
     strContains dkim_lower (chars "no selectors provided") ||
     strContains dkim_lower (chars "no valid selectors") ||
     strContains dkim (chars "does not exist") ||
     strContains dkim (chars "timeout") ||
     strContains dkim_lower (chars "error") then
    if strContains dkim_lower (chars "no selectors provided") &&
       !strContains dkim_lower (chars "tested common selectors") then
      .partialInfo
    else .notFound
  else .found

/-- C4: a dkim string containing `'no selectors provided'`
(case-insensitively) and not containing `'tested common selectors'` is
printed with the neutral/partial status, not found or not-found. -/
theorem C4_no_selectors_prints_partial (dkim : Str)
    (h1 : strContains (pyLower dkim) (chars "no selectors provided") = true)
    (h2 : strContains (pyLower dkim) (chars "tested common selectors") = false) :
    dkim_status dkim = .partialInfo := by
  simp [dkim_status, h1, h2]

/-- Witness for C4 at the concrete string `"No selectors provided"`. -/
theorem C4_no_selectors_prints_partial_witness :
    dkim_status (chars "No selectors provided") = .partialInfo :=
  C4_no_selectors_prints_partial (chars "No selectors provided") (by decide) (by decide)

lemma bool_imp_iff_or (a b c d : Bool) :
    (a = false → b = false → c = false → d = true) ↔
      (a = true ∨ b = true ∨ c = true ∨ d = true) := by
  cases a <;> cases b <;> cases c <;> cases d <;> simp

lemma status_if_iff (b : Bool) :
    ((if b = true then PrintStatus.notFound else .found) = .found ↔ b = false) ∧
    ((if b = true then PrintStatus.notFound else .found) = .notFound ↔ b = true) := by
  cases b <;> simp

/-- C5: `process_single_domain` prints the MX field as found exactly when
the mx string contains none of `'No MX'`, `'does not exist'`,
`'timeout'`, and (case-insensitively) `'error'`, and as not-found
otherwise; analogously for SPF with `'No SPF'` and DMARC with
`'No DMARC'`. -/
theorem C5_record_status_found_iff (s : Str) :
    (mx_status s = .found ↔
      ¬(strContains s (chars "No MX") = true ∨ strContains s (chars "does not exist") = true ∨
        strContains s (chars "timeout") = true ∨
        strContains (pyLower s) (chars "error") = true)) ∧
    (mx_status s = .notFound ↔
      (strContains s (chars "No MX") = true ∨ strContains s (chars "does not exist") = true ∨
        strContains s (chars "timeout") = true ∨
        strContains (pyLower s) (chars "error") = true)) ∧
    (spf_status s = .found ↔
      ¬(strContains s (chars "No SPF") = true ∨ strContains s (chars "does not exist") = true ∨
        strContains s (chars "timeout") = true ∨
        strContains (pyLower s) (chars "error") = true)) ∧
    (spf_status s = .notFound ↔
      (strContains s (chars "No SPF") = true ∨ strContains s (chars "does not exist") = true ∨
        strContains s (chars "timeout") = true ∨
        strContains (pyLower s) (chars "error") = true)) ∧
    (dmarc_status s = .found ↔
      ¬(strContains s (chars "No DMARC") = true ∨ strContains s (chars "does not exist") = true ∨
        strContains s (chars "timeout") = true ∨
        strContains (pyLower s) (chars "error") = true)) ∧
    (dmarc_status s = .notFound ↔
      (strContains s (chars "No DMARC") = true ∨ strContains s (chars "does not exist") = true ∨
        strContains s (chars "timeout") = true ∨
        strContains (pyLower s) (chars "error") = true)) := by
  refine ⟨?_, ?_, ?_, ?_, ?_, ?_⟩ <;>
    simp [mx_status, spf_status, dmarc_status, status_if_iff, bool_imp_iff_or,
      Bool.or_eq_true, Bool.or_eq_false_iff, or_assoc, not_or, Bool.not_eq_true]

/-- One per-domain check result: the Python dictionary with keys
`domain`, `mx`, `spf`, `dkim`, `dmarc`, `errors` produced by the DNS
engine and consumed by the CSV and printing layers. -/
structure DomainResult where
  domain : Str
  mx : Str
  spf : Str
  dkim : Str
  dmarc : Str
  errors : List Str
  deriving DecidableEq

/-- The CSV header row (src/csv_helper.py:73). -/
def csv_headers : List Str :=
  [chars "Domain", chars "MX Record", chars "SPF Record",
   chars "DKIM Record", chars "DMARC Record"]

/-- The CSV row written for one result (src/csv_helper.py:97-106):
`[domain, mx, spf, dkim, dmarc]`, each cell in its own column. -/
def result_row (r : DomainResult) : List Str :=
  [r.domain, r.mx, r.spf, r.dkim, r.dmarc]

/-- The file-system effect of one call to `write_results_to_csv`: the
open mode (`'a'` versus `'w'`) and the sequence of rows written. -/
structure CsvWrite where
  mode_append : Bool
  rows : List (List Str)
  deriving DecidableEq

/-- `csv_helper.write_results_to_csv` (src/csv_helper.py:52-116).
`io_ok` abstracts the file-system operations succeeding (the
`PermissionError` and generic exception handlers return `False` with
nothing durably written); `file_exists` abstracts
`os.path.isfile(filepath)`.  Returns the Python return value together
with the write performed, `none` when no file content is written. -/
def write_results_to_csv (results : List DomainResult) (append : Bool)
    (io_ok : Bool) (file_exists : Bool) : Bool × Option CsvWrite :=
  if results = [] then (false, none)
  else if io_ok then
    let write_header := if append then !file_exists else true
    let w : CsvWrite :=
      { mode_append := append
        rows := (if write_header then [csv_headers] else []) ++ results.map result_row }
    (true, some w)
  else (false, none)

/-- C2: for every non-empty result list (on the success path) the CSV
write succeeds with an optional header row that is exactly the five
column names `Domain`, `MX Record`, `SPF Record`, `DKIM Record`,
`DMARC Record`, followed by one row per result in order whose five cells
are exactly the result's `domain`, `mx`, `spf`, `dkim`, `dmarc` strings,
unmodified; the `errors` sequence never reaches the rows. -/
theorem C2_csv_rows_verbatim (results : List DomainResult)
    (append file_exists : Bool) (h : results ≠ []) :
    ∃ w : CsvWrite,
      write_results_to_csv results append true file_exists = (true, some w) ∧
      ∃ hdr, w.rows = hdr ++
          results.map (fun r => [r.domain, r.mx, r.spf, r.dkim, r.dmarc]) ∧
        (hdr = [] ∨ hdr = [[chars "Domain", chars "MX Record", chars "SPF Record",
                            chars "DKIM Record", chars "DMARC Record"]]) := by
  cases hb : (if append then !file_exists else true) with
  | false =>
    exact ⟨⟨append, results.map result_row⟩,
      by simp [write_results_to_csv, h, hb],
      [], by simp [result_row], Or.inl rfl⟩
  | true =>
    exact ⟨⟨append, csv_headers :: results.map result_row⟩,
      by simp [write_results_to_csv, h, hb],
      [csv_headers], by simp [result_row], Or.inr (by simp [csv_headers])⟩

/-- A concrete result record used in witness instantiations. -/
def sample_result : DomainResult :=
  { domain := chars "example.com"
    mx := chars "mx1.example.com"
    spf := chars "v=spf1 ~all"
    dkim := chars "No selectors provided"
    dmarc := chars "No DMARC record found"
    errors := [chars "warn"] }

/-- Witness for C2 at a concrete one-element result list. -/
theorem C2_csv_rows_verbatim_witness :
    ∃ w : CsvWrite,
      write_results_to_csv [sample_result] false true false = (true, some w) ∧
      ∃ hdr, w.rows = hdr ++
          [sample_result].map (fun r => [r.domain, r.mx, r.spf, r.dkim, r.dmarc]) ∧
        (hdr = [] ∨ hdr = [[chars "Domain", chars "MX Record", chars "SPF Record",
                            chars "DKIM Record", chars "DMARC Record"]]) :=
  C2_csv_rows_verbatim [sample_result] false false (by simp)

/-- C10: called with an empty results list, `write_results_to_csv`
returns `False` and performs no file-system effect, whatever the append
flag, the file-system success oracle, and the file-exists state. -/
theorem C10_csv_empty_noop (append io_ok file_exists : Bool) :
    write_results_to_csv [] append io_ok file_exists = (false, none) := rfl

/-- The module-level mutable state of `src/config.py`. -/
structure ConfigState where
  RELATIVE_FILE_PATH : Str
  NAMESERVER_LIST : List Str
  deriving DecidableEq

/-- The startup values of the two module-level variables
(src/config.py:13-15). -/
def initial_config : ConfigState :=
  { RELATIVE_FILE_PATH := chars "resources/output/",
    NAMESERVER_LIST := [chars "8.8.8.8", chars "8.8.4.4", chars "1.1.1.1"] }

/-- `config.update_path` (src/config.py:18-43) as a state transformer:
normalize the path separators, append a trailing `/` when missing, and
when `os.makedirs` succeeds (`makedirs_ok`) store the normalized path
and return `True`; on an exception return `False` with the state
unchanged. -/
def update_path (state : ConfigState) (path : Str) (makedirs_ok : Bool) :
    Bool × ConfigState :=
  let normalized_path := pyReplace path (chars "\\") (chars "/")
  let normalized_path :=
    if (chars "/").isSuffixOf normalized_path then normalized_path
    else normalized_path ++ chars "/"
  if makedirs_ok then
    (true, { state with RELATIVE_FILE_PATH := normalized_path })
  else (false, state)

/-- `config.get_nameserver_list` (src/config.py:46-48). -/
def get_nameserver_list (state : ConfigState) : List Str := state.NAMESERVER_LIST

/-- Fold a sequence of `update_path` calls (argument and `os.makedirs`
success) over the configuration state; `update_path` is the only code in
the repository that mutates `config.py`'s module state. -/
def apply_updates (state : ConfigState) : List (Str × Bool) → ConfigState
  | [] => state
  | (p, ok) :: rest => apply_updates (update_path state p ok).2 rest

/-- C8: the nameserver list is never mutated at runtime: after any
sequence of `update_path` calls, `get_nameserver_list` still returns the
startup list `["8.8.8.8", "8.8.4.4", "1.1.1.1"]`, and a single
`update_path` leaves `NAMESERVER_LIST` unchanged whatever its argument
and whether it returns `True` or `False`. -/
theorem C8_nameservers_immutable :
    (∀ ops : List (Str × Bool),
      get_nameserver_list (apply_updates initial_config ops) =
        [chars "8.8.8.8", chars "8.8.4.4", chars "1.1.1.1"]) ∧
    (∀ (s : ConfigState) (p : Str) (ok : Bool),
      (update_path s p ok).2.NAMESERVER_LIST = s.NAMESERVER_LIST) := by
  have hup : ∀ (s : ConfigState) (p : Str) (ok : Bool),
      (update_path s p ok).2.NAMESERVER_LIST = s.NAMESERVER_LIST := by
    intro s p ok
    unfold update_path
    cases ok <;> simp
  have hfold : ∀ (ops : List (Str × Bool)) (s : ConfigState),
      (apply_updates s ops).NAMESERVER_LIST = s.NAMESERVER_LIST := by
    intro ops
    induction ops with
    | nil => intro s; rfl
    | cons x rest ih =>
      intro s
      cases x with
      | mk p ok =>
        rw [apply_updates, ih, hup]
  exact ⟨fun ops => by rw [get_nameserver_list, hfold]; rfl, hup⟩

/-- The outcome of the `perform_complete_dns_check` call for one domain
inside the batch loop of `process_multiple_domains`: a result, some
other exception, or a `KeyboardInterrupt`. -/
inductive CheckOutcome where
  | ok (r : DomainResult)
  | exn (msg : Str)
  | interrupt
  deriving DecidableEq

/-- The for-loop of `process_multiple_domains`
(src/esdar-checker_v2.py:244-305).  Each successful result is
accumulated.  Both exception handlers call `print_error`, which is fatal
by default (src/terminal_message_handler.py:15-18 calls `sys.exit(1)`),
so the `KeyboardInterrupt` handler terminates the process at line 290
before the collected-results write at lines 291-294, and the generic
handler terminates at line 298 before the `skip_errors` check at line
300: those continuations are unreachable.  Returns the results
accumulated when the loop stopped and whether it exited early inside
`print_error`; the `skip_errors` parameter is kept for signature
fidelity but its only use (line 300) is never reached. -/
def pmd_loop (skip_errors : Bool) : List CheckOutcome → List DomainResult →
    List DomainResult × Bool
  | [], results => (results, false)
  | .ok r :: rest, results => pmd_loop skip_errors rest (results ++ [r])
  | .interrupt :: _, results => (results, true)
  | .exn _ :: _, results => (results, true)

/-- `process_multiple_domains` (src/esdar-checker_v2.py:219-318), applied
to the per-domain outcomes in domain order.  Only normal completion of
the loop reaches a CSV write (line 308, `if results:
write_results_to_csv(...)`); on an early exit the fatal `print_error`
has already terminated the process before the write calls at lines
291-294 and 302-305.  Returns the written list (`none` when nothing is
written) and whether the process exited early. -/
def process_multiple_domains (outcomes : List CheckOutcome)
    (skip_errors : Bool) : Option (List DomainResult) × Bool :=
  let out := pmd_loop skip_errors outcomes []
  ((if out.2 then none else if out.1 = [] then none else some out.1), out.2)

/-- C3 (code bug): the claimed behaviour is the code's visible intent —
the collected-results writes at src/esdar-checker_v2.py:291-294 and
302-305 and the `--skip_errors` help text promise it — but
`print_error` exits the process first
(src/terminal_message_handler.py:15-18), so those paths are dead.
Evaluated at the failing inputs: after one successfully checked domain,
a `KeyboardInterrupt` on the next domain exits without writing the
collected result; and an exception on the next domain exits even with
`skip_errors` enabled, so the remaining domain is never processed and
nothing is written. -/
theorem C3_fatal_print_error_skips_write :
    process_multiple_domains [CheckOutcome.ok sample_result, .interrupt] false =
      (none, true) ∧
    process_multiple_domains
      [CheckOutcome.ok sample_result, .exn (chars "boom"),
       .ok sample_result] true = (none, true) := by
  constructor <;> rfl

/-- The DNS record types queried by the engine (spec §4.1). -/
inductive RecordType where
  | MX
  | TXT
  deriving DecidableEq

/-- A classified DNS query outcome (spec §3, `QueryOutcome`). -/
inductive QueryOutcome where
  | found (value : Str)
  | notFound
  | nonexistentDomain
  | timeout
  | queryError (detail : Str)
  deriving DecidableEq

/-- Whether an outcome is `Found`. -/
def QueryOutcome.isFound : QueryOutcome → Bool
  | .found _ => true
  | _ => false

/-- Whether an outcome is a `Timeout` or `QueryError` (the two outcome
kinds the spec's §4.5 records in `errors`). -/
def QueryOutcome.isTransientError : QueryOutcome → Bool
  | .timeout => true
  | .queryError _ => true
  | _ => false

/-- Modelled from the spec: the repository's DNS resolution module
(`dns_lookup`, imported by src/esdar-checker_v2.py:18) is not part of
src/; per §4.1 the Resolver Client's contract is `query(name,
recordType, timeoutSeconds) -> QueryOutcome`, so the resolver is
abstracted as an oracle from query name and record type to a classified
outcome (the timeout bound and the multiplicity of raw TXT answers are
folded into the oracle). -/
def Resolver : Type := Str → RecordType → QueryOutcome

/-- Modelled from the spec (§4.3): the fixed phrase table mapping an
outcome to the stored field string: `Found → value`, `NotFound → "No
<TYPE> record found"`, `NonexistentDomain → "Domain does not exist"`,
`Timeout → "DNS query timeout"`, `QueryError → "error: <detail>"`. -/
def format_outcome (typeName : Str) : QueryOutcome → Str
  | .found v => v
  | .notFound => chars "No " ++ typeName ++ chars " record found"
  | .nonexistentDomain => chars "Domain does not exist"
  | .timeout => chars "DNS query timeout"
  | .queryError d => chars "error: " ++ d

/-- Modelled from the spec (§4.3): the MX strategy queries `domain` with
record type MX and formats per the phrase table. -/
def mx_strategy (resolve : Resolver) (domain : Str) : Str :=
  format_outcome (chars "MX") (resolve domain .MX)

/-- Modelled from the spec (§4.3): the SPF strategy queries `domain` TXT
and sanitizes the stored string for flat-file storage (`;` replaced by
`,` via `replace_characters`). -/
def spf_strategy (resolve : Resolver) (domain : Str) : Str :=
  replace_characters (format_outcome (chars "SPF") (resolve domain .TXT))

/-- Modelled from the spec (§4.3): the DMARC strategy queries
`_dmarc.domain` TXT and sanitizes like SPF. -/
def dmarc_strategy (resolve : Resolver) (domain : Str) : Str :=
  replace_characters
    (format_outcome (chars "DMARC") (resolve (chars "_dmarc." ++ domain) .TXT))

/-- Modelled from the spec (§4.3): one DKIM query, at
`selector._domainkey.domain`, record type TXT. -/
def dkim_query (resolve : Resolver) (domain selector : Str) : QueryOutcome :=
  resolve (selector ++ chars "._domainkey." ++ domain) .TXT

/-- Modelled from the spec (§4.4): the per-selector failure diagnostic
collected for `errors` (the spec fixes that failures are appended, not
their exact wording; the model records the selector and the classified
outcome). -/
def selector_failure_msg (selector : Str) (o : QueryOutcome) : Str :=
  chars "DKIM selector " ++ selector ++ chars ": " ++ format_outcome (chars "DKIM") o

/-- Modelled from the spec (§4.4 step 1): query each explicit selector in
the given order, stop at the first `Found` and report its value; when
all fail report `"No valid selectors found"` with the per-selector
failures collected for `errors`.  Returns (dkim field, failure
diagnostics, selectors actually queried in order). -/
def try_selectors (resolve : Resolver) (domain : Str) :
    List Str → Str × List Str × List Str
  | [] => (chars "No valid selectors found", [], [])
  | s :: rest =>
    match dkim_query resolve domain s with
    | .found v => (v, [], [s])
    | o =>
      let t := try_selectors resolve domain rest
      (t.1, selector_failure_msg s o :: t.2.1, s :: t.2.2)

/-- Modelled from the spec (§3): the fixed ordered candidate selector
list for auto-discovery. -/
def common_selectors : List Str :=
  [chars "default", chars "dkim", chars "mail", chars "email",
   chars "google", chars "selector1", chars "selector2", chars "k1", chars "s1"]

/-- Modelled from the spec (§4.4 step 2, §7, §8): auto-discovery iterates
the candidate list in order and stops at the first `Found`; when none
match it reports the tested-common-selectors phrase; mere absence adds
nothing to `errors`, while `Timeout`/`QueryError` failures during
discovery are recorded. -/
def auto_discover_go (resolve : Resolver) (domain : Str) :
    List Str → Str × List Str × List Str
  | [] => (chars "No DKIM record found — tested common selectors: " ++
      (chars ", ").intercalate common_selectors, [], [])
  | s :: rest =>
    match dkim_query resolve domain s with
    | .found v => (v, [], [s])
    | o =>
      let t := auto_discover_go resolve domain rest
      (t.1,
       (if o.isTransientError then [selector_failure_msg s o] else []) ++ t.2.1,
       s :: t.2.2)

/-- Modelled from the spec (§4.4): the Selector Discovery Engine:
explicit selectors when supplied, else the fixed candidate list when
auto-discovery is enabled, else the `"No selectors provided"` report
with zero DKIM queries issued. -/
def selector_discovery (resolve : Resolver) (domain : Str)
    (explicitSelectors : List Str) (autoDiscover : Bool) :
    Str × List Str × List Str :=
  if explicitSelectors ≠ [] then try_selectors resolve domain explicitSelectors
  else if autoDiscover then auto_discover_go resolve domain common_selectors
  else (chars "No selectors provided", [], [])

/-- Modelled from the spec (§4.5): the `Timeout`/`QueryError` diagnostics
collected from the three fixed-location strategies. -/
def aggregator_base_errors (resolve : Resolver) (domain : Str) : List Str :=
  (if (resolve domain .MX).isTransientError then
    [chars "MX: " ++ format_outcome (chars "MX") (resolve domain .MX)] else []) ++
  (if (resolve domain .TXT).isTransientError then
    [chars "SPF: " ++ format_outcome (chars "SPF") (resolve domain .TXT)] else []) ++
  (if (resolve (chars "_dmarc." ++ domain) .TXT).isTransientError then
    [chars "DMARC: " ++
      format_outcome (chars "DMARC") (resolve (chars "_dmarc." ++ domain) .TXT)]
   else [])

/-- Modelled from the spec (§4.5): the Aggregator
`checkDomain`/`perform_complete_dns_check`: invokes the MX, SPF, DMARC
strategies unconditionally and the Selector Discovery Engine for DKIM;
every `Timeout`/`QueryError` encountered on any field is also appended
to `errors`. -/
def perform_complete_dns_check (resolve : Resolver) (domain : Str)
    (selectors : List Str) (autoDiscover : Bool) : DomainResult :=
  let dkimR := selector_discovery resolve domain selectors autoDiscover
  { domain := domain
    mx := mx_strategy resolve domain
    spf := spf_strategy resolve domain
    dkim := dkimR.1
    dmarc := dmarc_strategy resolve domain
    errors := aggregator_base_errors resolve domain ++ dkimR.2.1 }

lemma try_selectors_all_fail (resolve : Resolver) (domain : Str)
    (sels : List Str)
    (h : ∀ s ∈ sels, (dkim_query resolve domain s).isFound = false) :
    try_selectors resolve domain sels =
      (chars "No valid selectors found",
       sels.map (fun s => selector_failure_msg s (dkim_query resolve domain s)),
       sels) := by
  induction sels with
  | nil => rfl
  | cons s rest ih =>
    have hs := h s (by simp)
    have hrest : ∀ x ∈ rest, (dkim_query resolve domain x).isFound = false :=
      fun x hx => h x (by simp [hx])
    cases ho : dkim_query resolve domain s with
    | found v => simp [QueryOutcome.isFound, ho] at hs
    | notFound => simp [try_selectors, ho, ih hrest]
    | nonexistentDomain => simp [try_selectors, ho, ih hrest]
    | timeout => simp [try_selectors, ho, ih hrest]
    | queryError d => simp [try_selectors, ho, ih hrest]

lemma auto_discover_field_all_fail (resolve : Resolver) (domain : Str)
    (sels : List Str)
    (h : ∀ s ∈ sels, (dkim_query resolve domain s).isFound = false) :
    (auto_discover_go resolve domain sels).1 =
      chars "No DKIM record found — tested common selectors: " ++
        (chars ", ").intercalate common_selectors := by
  induction sels with
  | nil => rfl
  | cons s rest ih =>
    have hs := h s (by simp)
    have hrest : ∀ x ∈ rest, (dkim_query resolve domain x).isFound = false :=
      fun x hx => h x (by simp [hx])
    cases ho : dkim_query resolve domain s with
    | found v => simp [QueryOutcome.isFound, ho] at hs
    | notFound => simp [auto_discover_go, ho, ih hrest]
    | nonexistentDomain => simp [auto_discover_go, ho, ih hrest]
    | timeout => simp [auto_discover_go, ho, ih hrest]
    | queryError d => simp [auto_discover_go, ho, ih hrest]

/-- The all-NXDOMAIN resolver: every query answers that the name does
not exist. -/
def resolveNX : Resolver := fun _ _ => .nonexistentDomain

/-- Counterexample to C6 as stated: with every query answering NXDOMAIN
and one explicit selector, the DKIM field reports
`"No valid selectors found"` — it does not report `"does not exist"`, so
not all four fields do. -/
theorem C6_counterexample :
    (perform_complete_dns_check resolveNX (chars "example.com")
        [chars "a"] false).dkim = chars "No valid selectors found" ∧
    strContains
      (perform_complete_dns_check resolveNX (chars "example.com")
        [chars "a"] false).dkim
      (chars "does not exist") = false := by
  constructor
  · rfl
  · decide

/-- C6 (amended): `perform_complete_dns_check` attempts all four record
families — each field is computed by its own strategy alone, so failure
of one strategy never prevents evaluation of the other three — and when
every DNS query for the domain returns NXDOMAIN the MX, SPF and DMARC
fields each independently report `"Domain does not exist"`, while the
DKIM field reports the selector-discovery outcome for its own input
(`"No valid selectors found"`, the tested-common-selectors phrase, or
`"No selectors provided"`). -/
theorem C6_failure_isolation :
    (∀ (resolve : Resolver) (domain : Str) (selectors : List Str) (a : Bool),
      (perform_complete_dns_check resolve domain selectors a).mx =
          mx_strategy resolve domain ∧
      (perform_complete_dns_check resolve domain selectors a).spf =
          spf_strategy resolve domain ∧
      (perform_complete_dns_check resolve domain selectors a).dmarc =
          dmarc_strategy resolve domain ∧
      (perform_complete_dns_check resolve domain selectors a).dkim =
          (selector_discovery resolve domain selectors a).1) ∧
    (∀ (resolve : Resolver) (domain : Str) (selectors : List Str) (a : Bool),
      (∀ n t, resolve n t = .nonexistentDomain) →
        (perform_complete_dns_check resolve domain selectors a).mx =
            chars "Domain does not exist" ∧
        (perform_complete_dns_check resolve domain selectors a).spf =
            chars "Domain does not exist" ∧
        (perform_complete_dns_check resolve domain selectors a).dmarc =
            chars "Domain does not exist" ∧
        (perform_complete_dns_check resolve domain selectors a).dkim =
          (if selectors ≠ [] then chars "No valid selectors found"
           else if a then
             chars "No DKIM record found — tested common selectors: " ++
               (chars ", ").intercalate common_selectors
           else chars "No selectors provided")) := by
  constructor
  · intro resolve domain selectors a
    exact ⟨rfl, rfl, rfl, rfl⟩
  · intro resolve domain selectors a h
    have hq : ∀ s, dkim_query resolve domain s = .nonexistentDomain :=
      fun s => h _ _
    have hfail : ∀ (l : List Str) (s : Str), s ∈ l →
        (dkim_query resolve domain s).isFound = false := by
      intro l s _
      rw [hq s]
      rfl
    refine ⟨?_, ?_, ?_, ?_⟩
    · show mx_strategy resolve domain = _
      rw [mx_strategy, h]
      rfl
    · show spf_strategy resolve domain = _
      rw [spf_strategy, h]
      show replace_characters (chars "Domain does not exist") = _
      rw [replace_characters_default_map]
      decide
    · show dmarc_strategy resolve domain = _
      rw [dmarc_strategy, h]
      show replace_characters (chars "Domain does not exist") = _
      rw [replace_characters_default_map]
      decide
    · show (selector_discovery resolve domain selectors a).1 = _
      unfold selector_discovery
      by_cases hsel : selectors ≠ []
      · rw [if_pos hsel, if_pos hsel, try_selectors_all_fail resolve domain selectors
          (hfail selectors)]
      · rw [if_neg hsel, if_neg hsel]
        cases a with
        | true =>
          simpa using auto_discover_field_all_fail resolve domain common_selectors
            (hfail common_selectors)
        | false => rfl

/-- Witness for the NXDOMAIN part of C6 at the all-NXDOMAIN resolver and
one explicit selector. -/
theorem C6_failure_isolation_witness :
    (perform_complete_dns_check resolveNX (chars "example.com")
        [chars "a"] false).mx = chars "Domain does not exist" ∧
    (perform_complete_dns_check resolveNX (chars "example.com")
        [chars "a"] false).spf = chars "Domain does not exist" ∧
    (perform_complete_dns_check resolveNX (chars "example.com")
        [chars "a"] false).dmarc = chars "Domain does not exist" ∧
    (perform_complete_dns_check resolveNX (chars "example.com")
        [chars "a"] false).dkim =
      (if [chars "a"] ≠ ([] : List Str) then chars "No valid selectors found"
       else if false then
         chars "No DKIM record found — tested common selectors: " ++
           (chars ", ").intercalate common_selectors
       else chars "No selectors provided") :=
  C6_failure_isolation.2 resolveNX (chars "example.com") [chars "a"] false
    (fun _ _ => rfl)

/-- C7: with a non-empty explicit selector list, discovery queries the
selectors in the given order, stops at the first `Found` and reports
that selector's value; when every selector fails the dkim field reports
`"No valid selectors found"` and all per-selector failures are appended
to the result's errors sequence. -/
theorem C7_selector_first_match (resolve : Resolver) (domain : Str)
    (pre post : List Str) (b v : Str)
    (hpre : ∀ s ∈ pre, (dkim_query resolve domain s).isFound = false)
    (hb : dkim_query resolve domain b = .found v) :
    (try_selectors resolve domain (pre ++ b :: post) =
      (v, pre.map (fun s => selector_failure_msg s (dkim_query resolve domain s)),
       pre ++ [b])) ∧
    (∀ sels : List Str,
      (∀ s ∈ sels, (dkim_query resolve domain s).isFound = false) →
        try_selectors resolve domain sels =
          (chars "No valid selectors found",
           sels.map (fun s => selector_failure_msg s (dkim_query resolve domain s)),
           sels)) ∧
    (∀ (sels : List Str) (a : Bool), sels ≠ [] →
      (perform_complete_dns_check resolve domain sels a).dkim =
          (try_selectors resolve domain sels).1 ∧
      ∃ others, (perform_complete_dns_check resolve domain sels a).errors =
          others ++ (try_selectors resolve domain sels).2.1) := by
  refine ⟨?_, fun sels h => try_selectors_all_fail resolve domain sels h, ?_⟩
  · induction pre with
    | nil => simp [try_selectors, hb]
    | cons s pre' ih =>
      have hs := hpre s (by simp)
      have hpre' : ∀ x ∈ pre', (dkim_query resolve domain x).isFound = false :=
        fun x hx => hpre x (by simp [hx])
      cases ho : dkim_query resolve domain s with
      | found w => simp [QueryOutcome.isFound, ho] at hs
      | notFound => simp [try_selectors, ho, ih hpre']
      | nonexistentDomain => simp [try_selectors, ho, ih hpre']
      | timeout => simp [try_selectors, ho, ih hpre']
      | queryError d => simp [try_selectors, ho, ih hpre']
  · intro sels a hsel
    have hdisc : selector_discovery resolve domain sels a =
        try_selectors resolve domain sels := by
      rw [selector_discovery, if_pos hsel]
    constructor
    · show (selector_discovery resolve domain sels a).1 = _
      rw [hdisc]
    · refine ⟨aggregator_base_errors resolve domain, ?_⟩
      show aggregator_base_errors resolve domain ++
          (selector_discovery resolve domain sels a).2.1 = _
      rw [hdisc]

/-- A concrete resolver for the C7 witness: only selector `b` at
`example.com` has a DKIM record. -/
def sample_resolver : Resolver := fun name _ =>
  if name = chars "b._domainkey.example.com" then
    .found (chars "v=DKIM1; k=rsa; p=KEY")
  else .notFound

/-- Witness for C7: selectors `a, b, c` where only `b` resolves. -/
theorem C7_selector_first_match_witness :
    (∀ s ∈ [chars "a"],
      (dkim_query sample_resolver (chars "example.com") s).isFound = false) ∧
    dkim_query sample_resolver (chars "example.com") (chars "b") =
      .found (chars "v=DKIM1; k=rsa; p=KEY") ∧
    ((try_selectors sample_resolver (chars "example.com")
        ([chars "a"] ++ (chars "b") :: [chars "c"]) =
      (chars "v=DKIM1; k=rsa; p=KEY",
       [chars "a"].map (fun s => selector_failure_msg s
         (dkim_query sample_resolver (chars "example.com") s)),
       [chars "a"] ++ [chars "b"])) ∧
    (∀ sels : List Str,
      (∀ s ∈ sels,
        (dkim_query sample_resolver (chars "example.com") s).isFound = false) →
        try_selectors sample_resolver (chars "example.com") sels =
          (chars "No valid selectors found",
           sels.map (fun s => selector_failure_msg s
             (dkim_query sample_resolver (chars "example.com") s)),
           sels)) ∧
    (∀ (sels : List Str) (a : Bool), sels ≠ [] →
      (perform_complete_dns_check sample_resolver (chars "example.com") sels a).dkim =
          (try_selectors sample_resolver (chars "example.com") sels).1 ∧
      ∃ others,
        (perform_complete_dns_check sample_resolver (chars "example.com") sels a).errors =
          others ++ (try_selectors sample_resolver (chars "example.com") sels).2.1)) :=
  ⟨by decide, by decide,
   C7_selector_first_match sample_resolver (chars "example.com")
     [chars "a"] [chars "c"] (chars "b") (chars "v=DKIM1; k=rsa; p=KEY")
     (by decide) (by decide)⟩

/-- The Unicode code points removed by Python `str.strip()` with no
argument (CPython's whitespace table). -/
def py_space_codes : List Nat :=
  [9, 10, 11, 12, 13, 28, 29, 30, 31, 32, 133, 160, 5760,
   8192, 8193, 8194, 8195, 8196, 8197, 8198, 8199, 8200, 8201, 8202,
   8232, 8233, 8239, 8287, 12288]

/-- Python's whitespace test, as used by `str.strip()`. -/
def pyIsSpace (c : Char) : Bool := decide (c.toNat ∈ py_space_codes)

/-- Python `str.strip()`: remove leading and trailing whitespace. -/
def pyStrip (s : Str) : Str :=
  ((s.dropWhile pyIsSpace).reverse.dropWhile pyIsSpace).reverse

/-- Python string comparison `a <= b`: lexicographic by code point. -/
def strLe : Str → Str → Bool
  | [], _ => true
  | _ :: _, [] => false
  | a :: as, b :: bs =>
    if a.toNat < b.toNat then true
    else if b.toNat < a.toNat then false
    else strLe as bs

/-- The seen-set deduplication loop of `cleanup_domains_list`
(src/helper.py:62-68), keeping the first occurrence of each string. -/
def dedup_seen : List Str → List Str → List Str
  | [], _ => []
  | d :: rest, seen =>
    if d ∈ seen then dedup_seen rest seen
    else d :: dedup_seen rest (d :: seen)

/-- `helper.cleanup_domains_list` (src/helper.py:46-73): strip, lowercase
and drop falsy entries, deduplicate keeping first occurrences, then sort
(`list.sort()` on Python strings is the unique code-point-lexicographic
ordering of the by-then duplicate-free list). -/
def cleanup_domains_list (domains : List Str) : List Str :=
  if domains = [] then []
  else
    (dedup_seen
      ((domains.filter (fun d => !(pyStrip d).isEmpty)).map
        (fun d => pyLower (pyStrip d)))
      []).mergeSort strLe

lemma char_toNat_inj {a b : Char} (h : a.toNat = b.toNat) : a = b :=
  Char.ext (UInt32.ext h)

lemma toNat_pyToLowerChar (c : Char) :
    (pyToLowerChar c).toNat =
      if 65 ≤ c.toNat ∧ c.toNat ≤ 90 then c.toNat + 32 else c.toNat := by
  unfold pyToLowerChar
  by_cases h : 65 ≤ c.toNat ∧ c.toNat ≤ 90
  · rw [if_pos h, if_pos h]
    have hv : (c.toNat + 32).isValidChar := Or.inl (by omega)
    simp only [Char.ofNat, hv, dif_pos]
    simp [Char.ofNatAux, Char.toNat, UInt32.toNat, UInt32.ofNatCore]
  · rw [if_neg h, if_neg h]

lemma pyToLowerChar_idem (c : Char) :
    pyToLowerChar (pyToLowerChar c) = pyToLowerChar c := by
  apply char_toNat_inj
  by_cases h : 65 ≤ c.toNat ∧ c.toNat ≤ 90
  · have h2 : ¬(65 ≤ c.toNat + 32 ∧ c.toNat + 32 ≤ 90) := by omega
    simp [toNat_pyToLowerChar, h, h2]
    omega
  · simp [toNat_pyToLowerChar, h]

lemma pyIsSpace_pyToLowerChar (c : Char) :
    pyIsSpace (pyToLowerChar c) = pyIsSpace c := by
  unfold pyIsSpace
  by_cases h : 65 ≤ c.toNat ∧ c.toNat ≤ 90
  · have h1 : (pyToLowerChar c).toNat = c.toNat + 32 := by
      rw [toNat_pyToLowerChar, if_pos h]
    have h2 : c.toNat + 32 ∉ py_space_codes := by
      simp only [py_space_codes, List.mem_cons, List.not_mem_nil, or_false]
      omega
    have h3 : c.toNat ∉ py_space_codes := by
      simp only [py_space_codes, List.mem_cons, List.not_mem_nil, or_false]
      omega
    rw [h1]
    simp [h2, h3]
  · rw [toNat_pyToLowerChar, if_neg h]

lemma pyLower_idem (s : Str) : pyLower (pyLower s) = pyLower s := by
  unfold pyLower
  induction s with
  | nil => rfl
  | cons c rest ih => simp_all [pyToLowerChar_idem]

lemma head?_dropWhile_false {α : Type} (p : α → Bool) (l : List α) :
    ∀ c, (l.dropWhile p).head? = some c → p c = false := by
  induction l with
  | nil => intro c h; simp [List.dropWhile] at h
  | cons a t ih =>
    intro c h
    by_cases hp : p a
    · rw [List.dropWhile_cons, if_pos hp] at h
      exact ih c h
    · rw [List.dropWhile_cons, if_neg hp] at h
      simp only [List.head?_cons, Option.some.injEq] at h
      subst h
      simpa using hp

lemma dropWhile_eq_self_of_head {α : Type} (p : α → Bool) (l : List α)
    (h : ∀ c, l.head? = some c → p c = false) : l.dropWhile p = l := by
  cases l with
  | nil => rfl
  | cons a t =>
    have := h a rfl
    simp [List.dropWhile_cons, this]

lemma getLast?_of_suffix {α : Type} {w v : List α} (h : w <:+ v) (hw : w ≠ []) :
    v.getLast? = w.getLast? := by
  obtain ⟨u, rfl⟩ := h
  rw [List.getLast?_append]
  cases hlast : w.getLast? with
  | none => exact absurd (List.getLast?_eq_none_iff.mp hlast) hw
  | some x => rfl

lemma pyStrip_head (l : Str) :
    ∀ c, (pyStrip l).head? = some c → pyIsSpace c = false := by
  intro c h
  unfold pyStrip at h
  rw [List.head?_reverse] at h
  by_cases hw : ((l.dropWhile pyIsSpace).reverse.dropWhile pyIsSpace) = []
  · rw [hw] at h
    simp at h
  · rw [← getLast?_of_suffix (List.dropWhile_suffix pyIsSpace) hw,
      List.getLast?_reverse] at h
    exact head?_dropWhile_false pyIsSpace l c h

lemma pyStrip_getLast (l : Str) :
    ∀ c, (pyStrip l).getLast? = some c → pyIsSpace c = false := by
  intro c h
  unfold pyStrip at h
  rw [List.getLast?_reverse] at h
  exact head?_dropWhile_false pyIsSpace _ c h

lemma pyStrip_of_clean (l : Str)
    (h1 : ∀ c, l.head? = some c → pyIsSpace c = false)
    (h2 : ∀ c, l.getLast? = some c → pyIsSpace c = false) : pyStrip l = l := by
  unfold pyStrip
  rw [dropWhile_eq_self_of_head _ l h1]
  rw [dropWhile_eq_self_of_head _ l.reverse
    (fun c hc => h2 c (by rwa [List.head?_reverse] at hc))]
  exact List.reverse_reverse l

lemma pyStrip_idem (l : Str) : pyStrip (pyStrip l) = pyStrip l :=
  pyStrip_of_clean _ (pyStrip_head l) (pyStrip_getLast l)

lemma pyStrip_pyLower (l : Str) : pyStrip (pyLower l) = pyLower (pyStrip l) := by
  have hpf : pyIsSpace ∘ pyToLowerChar = pyIsSpace := funext pyIsSpace_pyToLowerChar
  unfold pyStrip pyLower
  rw [List.dropWhile_map, ← List.map_reverse, List.dropWhile_map, ← List.map_reverse,
    hpf]

lemma strLe_trans : ∀ (a b c : Str), strLe a b = true → strLe b c = true →
    strLe a c = true := by
  intro a
  induction a with
  | nil => intro b c _ _; rfl
  | cons x xs ih =>
    intro b c hab hbc
    cases b with
    | nil => simp [strLe] at hab
    | cons y ys =>
      cases c with
      | nil => simp [strLe] at hbc
      | cons z zs =>
        simp only [strLe] at hab hbc ⊢
        rcases Nat.lt_trichotomy x.toNat y.toNat with hxy | hxy | hxy
        · rcases Nat.lt_trichotomy y.toNat z.toNat with hyz | hyz | hyz
          · rw [if_pos (show x.toNat < z.toNat by omega)]
          · rw [if_pos (show x.toNat < z.toNat by omega)]
          · rw [if_neg (show ¬y.toNat < z.toNat by omega),
              if_pos (show z.toNat < y.toNat by omega)] at hbc
            exact absurd hbc (by simp)
        · rcases Nat.lt_trichotomy y.toNat z.toNat with hyz | hyz | hyz
          · rw [if_pos (show x.toNat < z.toNat by omega)]
          · rw [if_neg (show ¬x.toNat < y.toNat by omega),
              if_neg (show ¬y.toNat < x.toNat by omega)] at hab
            rw [if_neg (show ¬y.toNat < z.toNat by omega),
              if_neg (show ¬z.toNat < y.toNat by omega)] at hbc
            rw [if_neg (show ¬x.toNat < z.toNat by omega),
              if_neg (show ¬z.toNat < x.toNat by omega)]
            exact ih ys zs hab hbc
          · rw [if_neg (show ¬y.toNat < z.toNat by omega),
              if_pos (show z.toNat < y.toNat by omega)] at hbc
            exact absurd hbc (by simp)
        · rw [if_neg (show ¬x.toNat < y.toNat by omega),
            if_pos (show y.toNat < x.toNat by omega)] at hab
          exact absurd hab (by simp)

lemma strLe_total : ∀ (a b : Str), (strLe a b || strLe b a) = true := by
  intro a
  induction a with
  | nil => intro b; simp [strLe]
  | cons x xs ih =>
    intro b
    cases b with
    | nil => simp [strLe]
    | cons y ys =>
      simp only [strLe]
      rcases Nat.lt_trichotomy x.toNat y.toNat with h | h | h
      · rw [if_pos h]
        simp
      · rw [if_neg (show ¬x.toNat < y.toNat by omega),
          if_neg (show ¬y.toNat < x.toNat by omega),
          if_neg (show ¬y.toNat < x.toNat by omega),
          if_neg (show ¬x.toNat < y.toNat by omega)]
        exact ih ys
      · rw [if_neg (show ¬x.toNat < y.toNat by omega),
          if_pos (show y.toNat < x.toNat by omega),
          if_pos (show y.toNat < x.toNat by omega)]
        simp

lemma strLe_antisymm : ∀ (a b : Str), strLe a b = true → strLe b a = true →
    a = b := by
  intro a
  induction a with
  | nil =>
    intro b _ hba
    cases b with
    | nil => rfl
    | cons y ys => simp [strLe] at hba
  | cons x xs ih =>
    intro b hab hba
    cases b with
    | nil => simp [strLe] at hab
    | cons y ys =>
      simp only [strLe] at hab hba
      rcases Nat.lt_trichotomy x.toNat y.toNat with h | h | h
      · rw [if_neg (show ¬y.toNat < x.toNat by omega),
          if_pos (show x.toNat < y.toNat by omega)] at hba
        exact absurd hba (by simp)
      · rw [if_neg (show ¬x.toNat < y.toNat by omega),
          if_neg (show ¬y.toNat < x.toNat by omega)] at hab
        rw [if_neg (show ¬y.toNat < x.toNat by omega),
          if_neg (show ¬x.toNat < y.toNat by omega)] at hba
        rw [char_toNat_inj h, ih ys hab hba]
      · rw [if_neg (show ¬x.toNat < y.toNat by omega),
          if_pos (show y.toNat < x.toNat by omega)] at hab
        exact absurd hab (by simp)

instance : IsAntisymm Str (fun a b => strLe a b = true) :=
  ⟨fun a b => strLe_antisymm a b⟩

lemma dedup_seen_mem {x : Str} : ∀ (l seen : List Str),
    x ∈ dedup_seen l seen → x ∈ l := by
  intro l
  induction l with
  | nil => intro seen h; simp [dedup_seen] at h
  | cons d rest ih =>
    intro seen h
    by_cases hd : d ∈ seen
    · rw [dedup_seen, if_pos hd] at h
      exact List.mem_cons_of_mem d (ih seen h)
    · rw [dedup_seen, if_neg hd] at h
      rcases List.mem_cons.mp h with h | h
      · exact h ▸ List.mem_cons_self d rest
      · exact List.mem_cons_of_mem d (ih (d :: seen) h)

lemma dedup_seen_not_mem_seen {x : Str} : ∀ (l seen : List Str),
    x ∈ dedup_seen l seen → x ∉ seen := by
  intro l
  induction l with
  | nil => intro seen h; simp [dedup_seen] at h
  | cons d rest ih =>
    intro seen h
    by_cases hd : d ∈ seen
    · rw [dedup_seen, if_pos hd] at h
      exact ih seen h
    · rw [dedup_seen, if_neg hd] at h
      rcases List.mem_cons.mp h with h | h
      · exact h ▸ hd
      · intro hx
        exact ih (d :: seen) h (List.mem_cons_of_mem d hx)

lemma dedup_seen_nodup : ∀ (l seen : List Str), (dedup_seen l seen).Nodup := by
  intro l
  induction l with
  | nil => intro seen; simp [dedup_seen]
  | cons d rest ih =>
    intro seen
    by_cases hd : d ∈ seen
    · rw [dedup_seen, if_pos hd]
      exact ih seen
    · rw [dedup_seen, if_neg hd]
      refine List.nodup_cons.mpr ⟨?_, ih (d :: seen)⟩
      intro hmem
      exact dedup_seen_not_mem_seen rest (d :: seen) hmem (List.mem_cons_self d seen)

lemma dedup_seen_eq_self : ∀ (l seen : List Str), l.Nodup →
    (∀ x ∈ l, x ∉ seen) → dedup_seen l seen = l := by
  intro l
  induction l with
  | nil => intro seen _ _; rfl
  | cons d rest ih =>
    intro seen hnd hsep
    have hd : d ∉ seen := hsep d (List.mem_cons_self d rest)
    rw [dedup_seen, if_neg hd]
    have hnd' := List.nodup_cons.mp hnd
    refine congrArg (d :: ·) (ih (d :: seen) hnd'.2 ?_)
    intro x hx
    rw [List.mem_cons]
    push_neg
    exact ⟨fun he => hnd'.1 (he ▸ hx), hsep x (List.mem_cons_of_mem d hx)⟩

lemma map_eq_self_of_mem {α : Type} (f : α → α) (l : List α)
    (h : ∀ x ∈ l, f x = x) : l.map f = l := by
  induction l with
  | nil => rfl
  | cons a t ih =>
    rw [List.map_cons, h a (List.mem_cons_self a t),
      ih fun x hx => h x (List.mem_cons_of_mem a hx)]

lemma cleanup_eq (domains : List Str) (h : domains ≠ []) :
    cleanup_domains_list domains =
      (dedup_seen
        ((domains.filter (fun d => !(pyStrip d).isEmpty)).map
          (fun d => pyLower (pyStrip d)))
        []).mergeSort strLe := by
  rw [cleanup_domains_list, if_neg h]

/-- C9: `cleanup_domains_list` returns an ascending (code-point
lexicographic) sorted list with no duplicates and no empty strings,
whose every element is the whitespace-stripped, lower-cased form of some
input element; consequently it is idempotent, and `main`
(src/esdar-checker_v2.py:349-357), which iterates its output, processes
domains in sorted order rather than input order. -/
theorem C9_cleanup_sorted_nodup_idem (domains : List Str) :
    List.Sorted (fun a b => strLe a b = true) (cleanup_domains_list domains) ∧
    (cleanup_domains_list domains).Nodup ∧
    (∀ x ∈ cleanup_domains_list domains,
      x ≠ [] ∧ ∃ d ∈ domains, x = pyLower (pyStrip d)) ∧
    cleanup_domains_list (cleanup_domains_list domains) =
      cleanup_domains_list domains := by
  by_cases hd : domains = []
  · subst hd
    have h0 : cleanup_domains_list [] = [] := rfl
    refine ⟨?_, ?_, ?_, ?_⟩
    · rw [h0]
      exact List.sorted_nil
    · rw [h0]
      exact List.nodup_nil
    · rw [h0]
      intro x hx
      exact absurd hx (List.not_mem_nil x)
    · rw [h0, h0]
  · have hout := cleanup_eq domains hd
    have hs : List.Sorted (fun a b => strLe a b = true)
        (cleanup_domains_list domains) := by
      rw [hout]
      exact List.sorted_mergeSort strLe_trans strLe_total _
    have hn : (cleanup_domains_list domains).Nodup := by
      rw [hout]
      exact (List.mergeSort_perm _ strLe).symm.nodup (dedup_seen_nodup _ _)
    have hmem : ∀ x ∈ cleanup_domains_list domains,
        x ≠ [] ∧ ∃ d ∈ domains, x = pyLower (pyStrip d) := by
      intro x hx
      rw [hout] at hx
      have hx1 := (List.mergeSort_perm _ strLe).mem_iff.mp hx
      have hx2 := dedup_seen_mem _ _ hx1
      rcases List.mem_map.mp hx2 with ⟨d, hdf, rfl⟩
      rcases List.mem_filter.mp hdf with ⟨hdm, hdp⟩
      constructor
      · intro he
        have hps : pyStrip d = [] := by
          cases hps : pyStrip d with
          | nil => rfl
          | cons a t =>
            rw [hps] at he
            exact absurd he (by simp [pyLower])
        rw [hps] at hdp
        simp at hdp
      · exact ⟨d, hdm, rfl⟩
    refine ⟨hs, hn, hmem, ?_⟩
    have hfix : ∀ x ∈ cleanup_domains_list domains,
        pyStrip x = x ∧ pyLower x = x ∧ (pyStrip x).isEmpty = false := by
      intro x hx
      rcases hmem x hx with ⟨hne, d, hdm, rfl⟩
      refine ⟨?_, pyLower_idem (pyStrip d), ?_⟩
      · rw [pyStrip_pyLower, pyStrip_idem]
      · rw [pyStrip_pyLower, pyStrip_idem]
        cases hc : pyLower (pyStrip d) with
        | nil => exact absurd hc hne
        | cons a t => rfl
    by_cases ho : cleanup_domains_list domains = []
    · rw [ho]
      rfl
    · have h1 : (cleanup_domains_list domains).filter
          (fun d => !(pyStrip d).isEmpty) = cleanup_domains_list domains :=
        List.filter_eq_self.mpr fun a ha => by
          show (!(pyStrip a).isEmpty) = true
          rw [(hfix a ha).2.2]
          rfl
      have hmap : (cleanup_domains_list domains).map
          (fun d => pyLower (pyStrip d)) = cleanup_domains_list domains :=
        map_eq_self_of_mem _ _ fun x hx => by
          show pyLower (pyStrip x) = x
          rw [(hfix x hx).1, (hfix x hx).2.1]
      have h3 : dedup_seen (cleanup_domains_list domains) [] =
          cleanup_domains_list domains :=
        dedup_seen_eq_self _ [] hn (by simp)
      have h4 : (cleanup_domains_list domains).mergeSort strLe =
          cleanup_domains_list domains :=
        List.eq_of_perm_of_sorted (List.mergeSort_perm _ strLe)
          (List.sorted_mergeSort strLe_trans strLe_total _) hs
      rw [cleanup_eq (cleanup_domains_list domains) ho, h1, hmap, h3, h4]
